import Mathlib

/-!
# Verification of the lavalink wrapper core

A shallow embedding of the repository's core data model and operations
(`src/structures/Track.ts`, `src/structures/Player.ts` — which also contains
the `Node` class — and `src/structures/LavalinkManager.ts`), together with
theorems settling the frozen claims about them.

Modelling conventions:
* JS numbers used as non-negative counters/indices are `Nat`; the user-facing
  volume (which the source range-checks against `< 0`) is `Int`.
* Fallible code (a `throw`) is `Except String`.
* Outbound frames, gateway sends and emitted events are recorded as a list of
  `Effect`s instead of performing I/O.  `Node#send` transport failures and
  other purely asynchronous rejections of fire-and-forget calls are outside
  the sequential model: a recorded effect stands for the initiated call.
* `void this._disconnect()` (fire-and-forget) is modelled as executing its
  effects immediately, in call order.
* `manager.resolveTrack` as called from `Player` methods is an oracle
  `Resolver` (`none` models a rejected resolution); the manager's own
  `resolveTrack` body is embedded separately for the claims about it.
-/

namespace RoseLavalink

/-- Resolved track (`structures/Track.ts`, class `Track`).  The fields copied
from the server's track-info payload; `track` is the opaque encoded handle. -/
structure Track where
  track : String
  identifier : String := ""
  isSeekable : Bool := false
  author : String := ""
  length : Nat := 0
  isStream : Bool := false
  position : Nat := 0
  title : String := ""
  uri : String := ""
  sourceName : String := ""
  requester : String := ""
deriving DecidableEq, Repr

/-- Unresolved track reference (`structures/Track.ts`, class `TrackPartial`). -/
structure TrackPartial where
  title : String
  requester : String
  author : Option String := none
  length : Option Nat := none
deriving DecidableEq, Repr

/-- A queue entry: `Track | TrackPartial`. -/
inductive Entry where
  | track (t : Track)
  | part (p : TrackPartial)
deriving DecidableEq, Repr

/-- `instanceof Track` on a queue entry. -/
def Entry.isTrack : Entry → Bool
  | .track _ => true
  | .part _ => false

/-- Project a queue entry to a `Track` when it is one. -/
def Entry.asTrack : Entry → Option Track
  | .track t => some t
  | .part _ => none

/-- `LoopType = 'off' | 'single' | 'queue'` (Player.ts line 60). -/
inductive LoopType
  | off
  | single
  | queue
deriving DecidableEq, Repr

/-- `enum PlayerState` (Player.ts lines 125-132). -/
inductive PlayerState
  | disconnected
  | connecting
  | connected
  | paused
  | playing
  | destroyed
deriving DecidableEq, Repr

/-- `'destroy' | 'pause'` move-behavior options. -/
inductive MoveBehavior
  | destroy
  | pause
deriving DecidableEq, Repr

/-- The check `state !== CONNECTED && state !== PAUSED && state !== PLAYING`
(negated) guarding most Player operations. -/
def activeState : PlayerState → Bool
  | .connected => true
  | .paused => true
  | .playing => true
  | _ => false

/-- Player options after constructor defaults (Player.ts lines 233-243). -/
structure PlayerOptions where
  guildId : String
  textChannelId : String
  voiceChannelId : String
  selfMute : Bool := false
  selfDeafen : Bool := true
  connectionTimeout : Nat := 15000
  becomeSpeaker : Bool := true
  moveBehavior : MoveBehavior := .destroy
  stageMoveBehavior : MoveBehavior := .pause
deriving DecidableEq, Repr

/-- Options of a `play` frame (Player.ts `PlayOptions`).  An absent options
object is modelled by the all-`none` record (`options ?? {}` builds it). -/
structure PlayOptions where
  startTime : Option Nat := none
  endTime : Option Nat := none
  volume : Option Int := none
  pause : Option Bool := none
deriving DecidableEq, Repr

/-- Voice-state data relevant to `Player._handleMove` (`data.suppress`). -/
structure VoiceData where
  channelId : Option String := none
  suppress : Bool := false
deriving DecidableEq, Repr

/-- Outbound node frames (`Node#send` payloads built by Player methods). -/
inductive NodeOp where
  | play (guildId : String) (track : String) (options : PlayOptions)
  | stop (guildId : String)
  | pause (guildId : String) (pause : Bool)
  | seek (guildId : String) (position : Nat)
  | volume (guildId : String) (volume : Int)
  | filtersOp (guildId : String) (filters : String)
  | destroyOp (guildId : String)
deriving DecidableEq, Repr

/-- Observable side effects of the modelled operations: frames sent to the
node, gateway voice-state sends, emitted events, and table mutations. -/
inductive Effect where
  | sendNode (op : NodeOp)
  | sendGateway (guildId : String) (channelId : Option String)
  | emitMoved (guildId : String) (oldChannel newChannel : Option String)
  | emitConnected (guildId : String)
  | emitDestroyed (guildId : String) (reason : String)
  | emitError (guildId : String) (message : String)
  | emitPaused (guildId : String) (reason : String)
  | emitResumed (guildId : String) (reason : String)
  | managerDeletePlayer (guildId : String)
  | requestToSpeak (guildId : String)
  | becomeSpeakerReq (guildId : String)
  | nodeEmitReconnecting (identifier : Nat)
  | nodeEmitError (identifier : Nat) (message : String)
  | nodeEmitDestroyed (identifier : Nat) (reason : String)
  | nodeAttemptConnect (identifier : Nat)
  | managerDeleteNode (identifier : Nat)
deriving DecidableEq, Repr

/-- The mutable state of a `Player` (Player.ts fields, lines 156-213), plus
the identifier of the node it is bound to. -/
structure Player where
  options : PlayerOptions
  nodeIdentifier : Nat := 0
  currentVoiceChannel : Option String := none
  filters : String := ""
  isSpeaker : Option Bool := none
  isStage : Option Bool := none
  loop : LoopType := .off
  position : Option Nat := none
  queue : List Entry := []
  queuePosition : Option Nat := none
  state : PlayerState := .disconnected
  volume : Int := 100
  lastVoiceState : Option VoiceData := none
  sentPausedPlay : Option Bool := none
deriving DecidableEq, Repr

/-- Oracle for `manager.resolveTrack` as used by Player methods.
`none` models a rejected resolution round-trip. -/
def Resolver : Type := TrackPartial → Option Track

end RoseLavalink

namespace RoseLavalink

/-! ## Player operations (Player.ts) -/

/-- `Player._play`, sending step (lines 691-698): force a paused start when in
the audience of a stage, record `sentPausedPlay`, send the play frame. -/
def Player.playFrameSend (p : Player) (t : Track) (o : PlayOptions) :
    Player × List Effect :=
  let o1 := if p.isStage = some true ∧ p.isSpeaker ≠ some true then
    { o with pause := some true } else o
  let p1 := if o1.pause = some true then { p with sentPausedPlay := some true } else p
  (p1, [Effect.sendNode (.play p.options.guildId t.track o1)])

/-- `Player._play` (lines 682-699): state check, volume normalisation
(explicit volume is range-checked and persisted, `volume: 100` is dropped
from the payload, a non-default player volume is injected), then send. -/
def Player.playFrame (p : Player) (t : Track) (options0 : PlayOptions) :
    Except String (Player × List Effect) :=
  if ¬ activeState p.state then
    .error "Cannot play when the player is not in a connected, paused, or playing state"
  else
    match options0.volume with
    | some v =>
      if v < 0 ∨ 1000 < v then .error "Volume must be between 0 and 1000"
      else
        let p1 := { p with volume := v }
        let o1 := if v = 100 then { options0 with volume := none } else options0
        .ok (p1.playFrameSend t o1)
    | none =>
      let o1 := if p.volume ≠ 100 then { options0 with volume := some p.volume }
        else options0
      .ok (p.playFrameSend t o1)

/-- `Player._stop` (lines 704-711): send a stop frame, clear the position,
return to Connected. -/
def Player.stopFrame (p : Player) : Player × List Effect :=
  ({ p with position := none, state := .connected },
   [Effect.sendNode (.stop p.options.guildId)])

/-- `Player._disconnect` (lines 556-569): leave the voice channel via the
gateway, clear the tracked channel, state Disconnected. -/
def Player.disconnect (p : Player) : Player × List Effect :=
  ({ p with currentVoiceChannel := none, state := .disconnected },
   [Effect.sendGateway p.options.guildId none])

/-- `Player.destroy` (lines 354-368): best-effort voice-channel leave, destroy
frame to the node, clear the queue and position, state Destroyed, emit
DESTROYED, remove from the manager table.  There is no already-destroyed
guard; every call performs the full sequence. -/
def Player.destroy (p : Player) (reason : String) : Player × List Effect :=
  let (p1, e1) := if p.currentVoiceChannel.isSome then p.disconnect else (p, [])
  let p2 := { p1 with queue := [], queuePosition := none, position := none,
                      state := .destroyed }
  (p2, e1 ++ [Effect.sendNode (.destroyOp p.options.guildId),
              Effect.emitDestroyed p.options.guildId reason,
              Effect.managerDeletePlayer p.options.guildId])

/-- `Player.pause` (lines 445-454). -/
def Player.pause (p : Player) (reason : String) :
    Except String (Player × List Effect) :=
  if ¬ activeState p.state then
    .error "Cannot pause when the player is not in a connected, paused, or playing state"
  else .ok ({ p with state := .paused },
    [Effect.sendNode (.pause p.options.guildId true),
     Effect.emitPaused p.options.guildId reason])

/-- `Player.resume` (lines 459-468). -/
def Player.resume (p : Player) (reason : String) :
    Except String (Player × List Effect) :=
  if ¬ activeState p.state then
    .error "Cannot resume when the player is not in a connected, paused, or playing state"
  else .ok ({ p with state := .playing },
    [Effect.sendNode (.pause p.options.guildId false),
     Effect.emitResumed p.options.guildId reason])

/-- `Player.stop` (lines 473-477): stop frame, then clear the queue index. -/
def Player.stopOp (p : Player) : Except String (Player × List Effect) :=
  if ¬ activeState p.state then
    .error "Cannot stop when the player is not in a connected, paused, or playing state"
  else
    let (p1, e1) := p.stopFrame
    .ok ({ p1 with queuePosition := none }, e1)

/-- `Player.setLoop` (lines 492-494): sets the loop field, nothing else. -/
def Player.setLoop (p : Player) (type : LoopType) : Player × List Effect :=
  ({ p with loop := type }, [])

/-- Lines 386-388 / 402-404: validate that the queue entry at `newPosition`
decodes to a real `Track` (with a non-empty encoded handle), send the play
frame for it, then set the queue index to `newPosition`. -/
def Player.playValidated (p : Player) (newPosition : Nat) (options : PlayOptions) :
    Except String (Player × List Effect) :=
  match p.queue[newPosition]? with
  | some (.track t) =>
    if t.track = "" then .error "Invalid track"
    else
      match p.playFrame t options with
      | .error e => .error e
      | .ok (p1, effs) => .ok ({ p1 with queuePosition := some newPosition }, effs)
  | _ => .error "Invalid track"

/-- `Player.play` (lines 377-390).  A single track argument is the singleton
list (both source branches compute the same `newPosition`).  Entries are
appended unconditionally; when the player was Connected the first newly
appended entry is resolved if needed, validated, played, and becomes the
queue index. -/
def Player.play (res : Resolver) (p : Player) (tracks : List Entry)
    (options : PlayOptions) : Except String (Player × List Effect) :=
  if ¬ activeState p.state then
    .error "Cannot play when the player is not in a connected, paused, or playing state"
  else
    let queue1 := p.queue ++ tracks
    if p.state = .connected then
      let newPosition := queue1.length - tracks.length
      match queue1[newPosition]? with
      | some (.part pt) =>
        match res pt with
        | none => .error "Track resolution failed"
        | some rt =>
          Player.playValidated { p with queue := queue1.set newPosition (.track rt) }
            newPosition options
      | _ => Player.playValidated { p with queue := queue1 } newPosition options
    else .ok ({ p with queue := queue1 }, [])

/-- Result of a queue-advance: `done` is a completed run, `thrown` models an
uncaught rejection from `manager.resolveTrack` (the advance does not
complete), `fuelOut` models exhausting the recursion budget (the source
recursion is unbounded). -/
inductive AdvanceResult where
  | done (p : Player) (effs : List Effect)
  | thrown (message : String)
  | fuelOut
deriving DecidableEq, Repr

/-- Prepend already-performed effects to a completed advance. -/
def AdvanceResult.prepend (effs : List Effect) : AdvanceResult → AdvanceResult
  | .done p e => .done p (effs ++ e)
  | .thrown m => .thrown m
  | .fuelOut => .fuelOut

/-- The index step of `_advanceQueue` (lines 531-535): a null index starts at
0; otherwise loop mode ≠ `single` increments it; an index that holds no entry
wraps to 0 under loop mode `queue`. -/
def advanceIndex (p : Player) : Nat :=
  match p.queuePosition with
  | none => 0
  | some i =>
    let i1 := if p.loop ≠ LoopType.single then i + 1 else i
    if (p.queue[i1]?).isNone ∧ p.loop = LoopType.queue then 0 else i1

/-- `Player._advanceQueue` (lines 529-551), with an explicit recursion budget.
After the index step, an index holding no entry is cleared (queue exhausted,
stop).  An entry that fails to decode to a real Track emits an error, bumps
the index once more under loop `single`, and recurses. -/
def Player.advanceQueue (res : Resolver) : Nat → Player → AdvanceResult
  | 0, _ => .fuelOut
  | Nat.succ fuel, p =>
    if ¬ activeState p.state then
      .done p [Effect.emitError p.options.guildId
        "Cannot advance the queue when the player is not in a connected, paused, or playing state"]
    else
      let pos1 : Nat := advanceIndex p
      let p1 := { p with queuePosition := some pos1 }
      match p1.queue[pos1]? with
      | none => .done { p1 with queuePosition := none } []
      | some entry =>
        let resolved : Except String Player :=
          match entry with
          | Entry.part pt =>
            match res pt with
            | none => Except.error "Track resolution failed"
            | some rt =>
              Except.ok { p1 with queue := p1.queue.set pos1 (Entry.track rt) }
          | Entry.track _ => Except.ok p1
        match resolved with
        | .error e => .thrown e
        | .ok p2 =>
          match p2.queue[pos1]? with
          | some (Entry.track t) =>
            if t.track = "" then
              let p3 := if p2.loop = LoopType.single then
                { p2 with queuePosition := some (pos1 + 1) } else p2
              AdvanceResult.prepend
                [Effect.emitError p.options.guildId
                  "Unable to get Track from new queue position while advancing the queue"]
                (Player.advanceQueue res fuel p3)
            else
              match p2.playFrame t {} with
              | .ok (p4, effs) => .done p4 effs
              | .error e =>
                let p3 := if p2.loop = LoopType.single then
                  { p2 with queuePosition := some (pos1 + 1) } else p2
                AdvanceResult.prepend [Effect.emitError p.options.guildId e]
                  (Player.advanceQueue res fuel p3)
          | _ =>
            let p3 := if p2.loop = LoopType.single then
              { p2 with queuePosition := some (pos1 + 1) } else p2
            AdvanceResult.prepend
              [Effect.emitError p.options.guildId
                "Unable to get Track from new queue position while advancing the queue"]
              (Player.advanceQueue res fuel p3)

/-- `Player.skip` (lines 396-406): state check, stop frame, then either an
explicit bounds-checked index (resolve, validate, play, set index) or a
queue-advance. -/
def Player.skip (res : Resolver) (fuel : Nat) (p : Player) (index : Option Nat) :
    Except String (Player × List Effect) :=
  if ¬ activeState p.state then
    .error "Cannot skip when the player is not in a connected, paused, or playing state"
  else
    let (p1, e1) := p.stopFrame
    match index with
    | some i =>
      if i ≥ p1.queue.length then .error "Invalid index"
      else
        match p1.queue[i]? with
        | some (.part pt) =>
          match res pt with
          | none => .error "Track resolution failed"
          | some rt =>
            match Player.playValidated { p1 with queue := p1.queue.set i (.track rt) } i {} with
            | .error e => .error e
            | .ok (p2, e2) => .ok (p2, e1 ++ e2)
        | _ =>
          match Player.playValidated p1 i {} with
          | .error e => .error e
          | .ok (p2, e2) => .ok (p2, e1 ++ e2)
    | none =>
      match p1.advanceQueue res fuel with
      | .done p2 e2 => .ok (p2, e1 ++ e2)
      | .thrown m => .error m
      | .fuelOut => .error "advance budget exhausted"

/-- The Fisher-Yates loop of `Player.shuffle` (lines 414-420).  `rands c`
models `Math.floor(Math.random() * c)` for the current index `c`, always
`< c` in the source; an out-of-range draw (unreachable there) leaves the
list unchanged. -/
def shuffleLoop (rands : Nat → Nat) : Nat → List Entry → List Entry
  | 0, q => q
  | Nat.succ c, q =>
    let r := rands (c + 1)
    let q1 :=
      match q[c]?, q[r]? with
      | some a, some b => (q.set c b).set r a
      | _, _ => q
    shuffleLoop rands c q1

/-- `Player.shuffle` (lines 411-425): state check, stop frame, in-place
Fisher-Yates over the whole queue, resolve the new position-0 entry if
needed, validate and play it, reset the queue index to 0. -/
def Player.shuffle (rands : Nat → Nat) (res : Resolver) (p : Player) :
    Except String (Player × List Effect) :=
  if ¬ activeState p.state then
    .error "Cannot shuffle when the player is not in a connected, paused, or playing state"
  else
    let (p1, e1) := p.stopFrame
    let q := shuffleLoop rands p1.queue.length p1.queue
    let resolved : Except String (List Entry) :=
      match q[0]? with
      | some (Entry.part pt) =>
        match res pt with
        | none => Except.error "Track resolution failed"
        | some rt => Except.ok (q.set 0 (Entry.track rt))
      | _ => Except.ok q
    match resolved with
    | .error e => .error e
    | .ok q1 =>
      match q1[0]? with
      | some (Entry.track t) =>
        if t.track = "" then .error "Invalid track at new queue position 0"
        else
          match Player.playFrame { p1 with queue := q1 } t {} with
          | .error e => .error e
          | .ok (p2, e2) => .ok ({ p2 with queuePosition := some 0 }, e1 ++ e2)
      | _ => .error "Invalid track at new queue position 0"

/-! ## Voice-update reconciliation (Player._handleMove, lines 593-637) -/

/-- Result of `Player._getStagePermissions`, supplied as an oracle. -/
structure StagePermissions where
  becomeSpeaker : Bool
  request : Bool
deriving DecidableEq, Repr

/-- `_handleMove` lines 603-606, the `moveBehavior === 'pause'` reaction:
resume when moving into the bound channel while Paused, pause when moving out
of it while Playing.  `p.resume`/`p.pause` cannot fail here (the caller is in
an active state), but their failure is carried faithfully as a no-op. -/
def Player.movePauseStep (p : Player) (newChannel : Option String) :
    Player × List Effect :=
  let wasCorrect := some p.options.voiceChannelId = p.currentVoiceChannel
  let nowCorrect := some p.options.voiceChannelId = newChannel
  if p.options.moveBehavior = MoveBehavior.pause then
    if p.state = PlayerState.paused ∧ ¬ wasCorrect ∧ nowCorrect then
      match p.resume "Moved into the voice channel" with
      | .ok r => r
      | .error _ => (p, [])
    else if p.state = PlayerState.playing ∧ wasCorrect ∧ ¬ nowCorrect then
      match p.pause "Moved out of the voice channel" with
      | .ok r => r
      | .error _ => (p, [])
    else (p, [])
  else (p, [])

/-- `_handleMove` lines 611-626, the `stageMoveBehavior === 'pause'` reaction
on the player `pB` (after the speaker flag update): resume when becoming a
speaker while Paused; when newly suppressed while Playing, pause and
re-attempt speaker negotiation according to the permission oracle. -/
def Player.stagePauseStep (perms : StagePermissions) (pB : Player)
    (wasSuppressed nowSuppressed : Bool) : Player × List Effect :=
  if pB.options.stageMoveBehavior = MoveBehavior.pause then
    if pB.state = PlayerState.paused ∧ wasSuppressed ∧ ¬ nowSuppressed then
      match pB.resume "Became a speaker" with
      | .ok r => r
      | .error _ => (pB, [])
    else if pB.state = PlayerState.playing ∧ ¬ wasSuppressed ∧ nowSuppressed then
      match pB.pause "Moved to the audience" with
      | .ok (pD, eD) =>
        if perms.request then
          (pD, eD ++ [Effect.requestToSpeak pB.options.guildId])
        else if perms.becomeSpeaker then
          (pD, eD ++ [Effect.becomeSpeakerReq pB.options.guildId])
        else (pD, eD)
      | .error _ => (pB, [])
    else (pB, [])
  else (pB, [])

/-- `Player._handleMove` (lines 593-637).  Note the two `return
this.destroy(...)` statements (lines 602 and 610) exit before the final
recording of `currentVoiceChannel`/`lastVoiceState` (lines 635-636); the
wrong-channel destroy while Connecting (line 632) falls through to it. -/
def Player.handleMove (perms : StagePermissions) (p : Player)
    (newChannel : Option String) (data : VoiceData) : Player × List Effect :=
  let e0 := if newChannel ≠ p.currentVoiceChannel then
    [Effect.emitMoved p.options.guildId p.currentVoiceChannel newChannel] else []
  let nowCorrect := some p.options.voiceChannelId = newChannel
  let wasSuppressed := (p.lastVoiceState.map VoiceData.suppress).getD false
  let nowSuppressed := data.suppress
  if activeState p.state then
    if p.options.moveBehavior = MoveBehavior.destroy ∧ (¬ nowCorrect ∨ newChannel = none) then
      let (p1, e1) := p.destroy "Player was moved out of the voice channel"
      (p1, e0 ++ e1)
    else
      let (pA, eA) := p.movePauseStep newChannel
      if p.isStage = some true ∧ p.options.becomeSpeaker = true ∧ p.lastVoiceState.isSome then
        let pB := { pA with isSpeaker := some (¬ nowSuppressed) }
        if p.options.stageMoveBehavior = MoveBehavior.destroy ∧ ¬ wasSuppressed ∧ nowSuppressed then
          let (p1, e1) := pB.destroy "Player was moved to the audience"
          (p1, e0 ++ eA ++ e1)
        else
          let (pC, eC) := Player.stagePauseStep perms pB wasSuppressed nowSuppressed
          ({ pC with currentVoiceChannel := newChannel, lastVoiceState := some data },
           e0 ++ eA ++ eC)
      else
        ({ pA with currentVoiceChannel := newChannel, lastVoiceState := some data },
         e0 ++ eA)
  else if p.state = PlayerState.connecting then
    if nowCorrect then
      ({ p with state := .connected, currentVoiceChannel := newChannel,
                lastVoiceState := some data },
       e0 ++ [Effect.emitConnected p.options.guildId])
    else
      let (p1, e1) := p.destroy "Connected to incorrect channel"
      ({ p1 with currentVoiceChannel := newChannel, lastVoiceState := some data },
       e0 ++ e1)
  else
    ({ p with currentVoiceChannel := newChannel, lastVoiceState := some data }, e0)

/-! ## Node configuration (Node class in Player.ts, lines 753-905) -/

/-- `NodeOptions` before defaults (all fields optional). -/
structure NodeOptions where
  host : Option String := none
  port : Option Nat := none
  password : Option String := none
  secure : Option Bool := none
  clientName : Option String := none
  requestTimeout : Option Nat := none
  maxRetrys : Option Nat := none
  retryDelay : Option Nat := none
  connectionTimeout : Option Nat := none
deriving DecidableEq, Repr

/-- Node options after constructor defaults. -/
structure CompleteNodeOptions where
  host : String
  port : Nat
  password : String
  secure : Bool
  clientName : String
  connectionTimeout : Nat
  requestTimeout : Nat
  maxRetrys : Nat
  retryDelay : Nat
deriving DecidableEq, Repr

/-- Defaults applied in the Node constructor (lines 882-892). -/
def NodeOptions.applyDefaults (o : NodeOptions) : CompleteNodeOptions :=
  { host := o.host.getD "localhost"
    port := o.port.getD 2333
    password := o.password.getD "youshallnotpass"
    secure := o.secure.getD false
    clientName := o.clientName.getD "rose-lavalink"
    connectionTimeout := o.connectionTimeout.getD 15000
    requestTimeout := o.requestTimeout.getD 15000
    maxRetrys := o.maxRetrys.getD 10
    retryDelay := o.retryDelay.getD 15000 }

/-- The Node constructor's configuration step: apply defaults, then the
validation at line 894, which throws exactly when
`connectionTimeout > retryDelay` (equality is accepted). -/
def nodeConstruct (o : NodeOptions) : Except String CompleteNodeOptions :=
  let c := o.applyDefaults
  if c.connectionTimeout > c.retryDelay then
    .error "Node connection timeout must be greater than the reconnect retry delay"
  else .ok c

/-! ## LavalinkManager search identifier (LavalinkManager.ts line 315,
util/Constants) -/

/-- Search source (`Source = 'youtube' | 'soundcloud'`). -/
inductive Source
  | youtube
  | soundcloud
deriving DecidableEq, Repr

/-- The string value of a `Source`, used to index `SOURCE_IDENTIFIERS`. -/
def Source.key : Source → String
  | .youtube => "youtube"
  | .soundcloud => "soundcloud"

/-- `Constants.SOURCE_IDENTIFIERS` — a JS object with exactly the keys
`youtube: 'yt'` and `spotify: 'sc'`; any other key reads as `undefined`. -/
def SOURCE_IDENTIFIERS (key : String) : Option String :=
  if key = "youtube" then some "yt"
  else if key = "spotify" then some "sc"
  else none

/-- `Constants.URL_REGEX.test q` for the regex `^https?:\/\/`. -/
def urlRegexTest (q : String) : Bool :=
  "http://".toList.isPrefixOf q.toList || "https://".toList.isPrefixOf q.toList

/-- Rendering of a JS template placeholder: `undefined` prints as the string
`"undefined"`. -/
def jsTemplate : Option String → String
  | some s => s
  | none => "undefined"

/-- The identifier sent to the node's `/loadtracks` endpoint
(LavalinkManager.search line 315): a bare URL passes through verbatim,
otherwise the JS template `` `${SOURCE_IDENTIFIERS[source]}search:${query}` ``
is built. -/
def searchIdentifier (query : String) (source : Source) : String :=
  if urlRegexTest query then query
  else jsTemplate (SOURCE_IDENTIFIERS source.key) ++ "search:" ++ query

/-! ## Node lifecycle (Node class in Player.ts, lines 822-1091) -/

/-- `enum NodeState` (lines 803-809). -/
inductive NodeState
  | disconnected
  | connecting
  | reconnecting
  | connected
  | destroyed
deriving DecidableEq, Repr

/-- The mutable state of a `Node`: identifier, completed options, lifecycle
state, reconnect-attempt counter, and whether the reconnect interval timer
is currently armed. -/
structure NodeM where
  identifier : Nat
  options : CompleteNodeOptions
  state : NodeState := .disconnected
  reconnectAttempts : Nat := 0
  reconnectTimeoutActive : Bool := false
deriving DecidableEq, Repr

/-- `Node.destroy` (lines 953-971): close the socket, reset the attempt
counter, clear the reconnect timer, destroy every player bound to this node
with reason `'Attached node destroyed'` (each removes itself from the
manager's player table), state Destroyed, emit DESTROYED, remove the node
from the manager's pool. -/
def NodeM.destroy (n : NodeM) (players : List Player) (reason : String) :
    NodeM × List Player × List Effect :=
  let bound := players.filter (fun pl => pl.nodeIdentifier = n.identifier)
  let playerEffs := (bound.map (fun pl => (pl.destroy "Attached node destroyed").2)).flatten
  let remaining := players.filter (fun pl => ¬ pl.nodeIdentifier = n.identifier)
  ({ n with state := .destroyed, reconnectAttempts := 0, reconnectTimeoutActive := false },
   remaining,
   playerEffs ++ [Effect.nodeEmitDestroyed n.identifier reason,
                  Effect.managerDeleteNode n.identifier])

/-- `Node.reconnect` entry (lines 1021-1023): state Reconnecting and the
retry interval armed. -/
def NodeM.reconnectStart (n : NodeM) : NodeM :=
  { n with state := .reconnecting, reconnectTimeoutActive := true }

/-- One firing of the reconnect interval (lines 1023-1033).  `connectFails`
says whether this tick's `connect()` attempt rejects (a failure increments
the counter).  Reaching the cap (`maxRetrys ≠ 0` and the counter at the cap)
emits an error and self-destroys with the default reason.  A successful
attempt (`_onOpen`, lines 1039-1046) clears the interval and sets Connected.
A cleared interval never fires. -/
def NodeM.reconnectTick (connectFails : Bool) (n : NodeM) (players : List Player) :
    NodeM × List Player × List Effect :=
  if ¬ n.reconnectTimeoutActive then (n, players, [])
  else if n.options.maxRetrys ≠ 0 ∧ n.reconnectAttempts ≥ n.options.maxRetrys then
    let msg := "Unable to reconnect after " ++ toString n.reconnectAttempts ++ " attempts."
    let (n1, ps1, effs) := n.destroy players "Manual destroy"
    (n1, ps1, Effect.nodeEmitError n.identifier msg :: effs)
  else
    let n1 := { n with state := .reconnecting }
    if connectFails then
      ({ n1 with reconnectAttempts := n1.reconnectAttempts + 1 }, players,
       [Effect.nodeEmitReconnecting n.identifier, Effect.nodeAttemptConnect n.identifier])
    else
      ({ n1 with state := .connected, reconnectTimeoutActive := false }, players,
       [Effect.nodeEmitReconnecting n.identifier, Effect.nodeAttemptConnect n.identifier])

/-- Run `k` firings of the reconnect interval in which every `connect()`
attempt fails, accumulating effects. -/
def NodeM.runFailingTicks : Nat → NodeM → List Player → NodeM × List Player × List Effect
  | 0, n, ps => (n, ps, [])
  | Nat.succ k, n, ps =>
    let t1 := n.reconnectTick true ps
    let t2 := NodeM.runFailingTicks k t1.1 t1.2.1
    (t2.1, t2.2.1, t1.2.2 ++ t2.2.2)

/-! ## Track resolution (LavalinkManager.resolveTrack, lines 349-366) -/

/-- Load types of a search envelope. -/
inductive LoadType
  | trackLoaded
  | playlistLoaded
  | searchResult
  | noMatches
  | loadFailed
deriving DecidableEq, Repr

/-- The parts of a search result that `resolveTrack` inspects. -/
structure SearchEnvelope where
  loadType : LoadType
  tracks : List Entry
deriving DecidableEq, Repr

/-- Case-insensitive string comparison, modelling a full-match `RegExp` with
the `i` flag built from an escaped literal (line 354). -/
def caselessEq (a b : String) : Bool :=
  a.toList.map Char.toLower = b.toList.map Char.toLower

/-- The author filter of line 354: the candidate author equals the hint
author, or the hint author followed by `" - Topic"`, case-insensitively.
(The `?? new RegExp(...).test(t.title)` arm is dead: `.test` never returns
a nullish value, so only the author is ever consulted.) -/
def authorMatch (hintAuthor : String) (t : Track) : Bool :=
  caselessEq t.author hintAuthor || caselessEq t.author (hintAuthor ++ " - Topic")

/-- The duration filter of lines 358-361: a truthy candidate length within
`[hint - 2000, hint + 200]` (Nat subtraction truncates at 0 exactly as the
JS comparison against a possibly negative bound behaves for non-negative
candidate lengths). -/
def durationMatch (hintLength : Nat) (t : Track) : Bool :=
  t.length ≠ 0 && hintLength - 2000 ≤ t.length && t.length ≤ hintLength + 200

/-- The author-preference candidates: empty when the hint has no truthy
author (line 353 `if (track.author)`). -/
def authorCandidates (pt : TrackPartial) (tracks : List Track) : List Track :=
  match pt.author with
  | some a => if a ≠ "" then tracks.filter (authorMatch a) else []
  | none => []

/-- The duration-preference candidates: empty when the hint has no truthy
length (line 357 `if (track.length)`). -/
def durationCandidates (pt : TrackPartial) (tracks : List Track) : List Track :=
  match pt.length with
  | some l => if l ≠ 0 then tracks.filter (durationMatch l) else []
  | none => []

/-- The Track instances of the envelope (line 351:
`search.tracks.filter((t) => t instanceof Track)`). -/
def searchTracks (sr : SearchEnvelope) : List Track :=
  sr.tracks.filterMap Entry.asTrack

/-- `LavalinkManager.resolveTrack` (lines 349-366), taking the already
fetched search envelope: keep only `Track` instances, fail unless the load
type is a plain search result with at least one candidate, then prefer the
first author match, else the first duration match, else the first candidate
(the final `none` arm is unreachable: the candidate list is non-empty
there). -/
def resolveTrack (sr : SearchEnvelope) (pt : TrackPartial) : Except String Track :=
  if sr.loadType ≠ LoadType.searchResult ∨ searchTracks sr = [] then
    .error "No results found"
  else
    match (authorCandidates pt (searchTracks sr)).head? with
    | some t => .ok t
    | none =>
      match (durationCandidates pt (searchTracks sr)).head? with
      | some t => .ok t
      | none =>
        match (searchTracks sr).head? with
        | some t => .ok t
        | none => .error "No results found"

/-! ## Shared sample data for witnesses and counterexamples -/

/-- A minimal set of player options. -/
def sampleOptions : PlayerOptions :=
  { guildId := "guild1", textChannelId := "text1", voiceChannelId := "vc1" }

/-- A sample resolved track. -/
def sampleTrack : Track :=
  { track := "enc1", author := "Artist", title := "Song", length := 180000 }

/-- A second sample resolved track. -/
def sampleTrack2 : Track :=
  { track := "enc2", author := "Other", title := "Tune", length := 120000 }

end RoseLavalink

namespace RoseLavalink

/-! ## Helper lemmas -/

/-- `_play` with no options object never fails for an active player; it sends
exactly one play frame and leaves every field other than `volume` and
`sentPausedPlay` unchanged. -/
theorem playFrame_default_ok (p : Player) (t : Track)
    (h : activeState p.state = true) :
    ∃ p1 o, p.playFrame t {} =
        .ok (p1, [Effect.sendNode (.play p.options.guildId t.track o)]) ∧
      p1.queue = p.queue ∧ p1.queuePosition = p.queuePosition ∧ p1.state = p.state ∧
      p1.options = p.options ∧ p1.currentVoiceChannel = p.currentVoiceChannel ∧
      p1.lastVoiceState = p.lastVoiceState ∧ p1.loop = p.loop := by
  by_cases h2 : p.isStage = some true ∧ p.isSpeaker ≠ some true <;>
    by_cases h1 : p.volume ≠ 100
  · exact ⟨{ p with sentPausedPlay := some true },
      { volume := some p.volume, pause := some true },
      by simp [Player.playFrame, Player.playFrameSend, h, h1, h2.1, h2.2],
      rfl, rfl, rfl, rfl, rfl, rfl, rfl⟩
  · exact ⟨{ p with sentPausedPlay := some true }, { pause := some true },
      by simp [Player.playFrame, Player.playFrameSend, h, h1, h2.1, h2.2],
      rfl, rfl, rfl, rfl, rfl, rfl, rfl⟩
  · exact ⟨p, { volume := some p.volume },
      by simp [Player.playFrame, Player.playFrameSend, h, h1, h2],
      rfl, rfl, rfl, rfl, rfl, rfl, rfl⟩
  · exact ⟨p, {},
      by simp [Player.playFrame, Player.playFrameSend, h, h1, h2],
      rfl, rfl, rfl, rfl, rfl, rfl, rfl⟩

/-- A queue entry that is a resolved `Track` with a truthy encoded handle. -/
def Entry.resolvedOk : Entry → Bool
  | .track t => t.track ≠ ""
  | .part _ => false

/-- Every entry of the queue is a resolved `Track` with a truthy handle. -/
def allResolved (q : List Entry) : Bool :=
  q.all Entry.resolvedOk

/-- Reading any position of an all-resolved queue yields a `Track` with a
non-empty handle. -/
theorem allResolved_get {q : List Entry} {i : Nat} {e : Entry}
    (hq : allResolved q = true) (h : q[i]? = some e) :
    ∃ t, e = Entry.track t ∧ t.track ≠ "" := by
  have hmem : e ∈ q := by
    have := List.getElem?_eq_some.mp h
    obtain ⟨hlt, hget⟩ := this
    exact hget ▸ List.getElem_mem hlt
  have := List.all_eq_true.mp hq e hmem
  cases e with
  | track t => exact ⟨t, rfl, by simpa [Entry.resolvedOk] using this⟩
  | part pt => simp [Entry.resolvedOk] at this

/-- A completed queue-advance step when the computed index holds a valid
track: the play frame is sent and the index lands on the computed index,
with the queue and state untouched. -/
theorem advanceQueue_done_of_track (res : Resolver) (fuel : Nat) (p : Player) {t : Track}
    (hA : activeState p.state = true)
    (ht : p.queue[advanceIndex p]? = some (Entry.track t))
    (hh : ¬ t.track = "") :
    ∃ p1 o, p.advanceQueue res (fuel + 1) =
        .done p1 [Effect.sendNode (.play p.options.guildId t.track o)] ∧
      p1.queuePosition = some (advanceIndex p) ∧ p1.queue = p.queue ∧
      p1.state = p.state := by
  have hA1 : activeState ({ p with queuePosition := some (advanceIndex p) } : Player).state
      = true := hA
  obtain ⟨p4, o, heq, hq4, hqp4, hs4, -⟩ :=
    playFrame_default_ok { p with queuePosition := some (advanceIndex p) } t hA1
  refine ⟨p4, o, ?_, by rw [hqp4], by rw [hq4], by rw [hs4]⟩
  show Player.advanceQueue res (Nat.succ fuel) p = _
  unfold Player.advanceQueue
  rw [if_neg (by simp [hA])]
  simp only []
  rw [show ({ p with queuePosition := some (advanceIndex p) } : Player).queue[advanceIndex p]?
      = some (Entry.track t) from ht]
  simp only []
  rw [show ({ p with queuePosition := some (advanceIndex p) } : Player).queue[advanceIndex p]?
      = some (Entry.track t) from ht]
  simp only [hh, if_false, ite_false, heq]

/-- A completed queue-advance step when the computed index holds no entry:
the index is cleared (queue exhausted) and nothing further happens. -/
theorem advanceQueue_done_of_none (res : Resolver) (fuel : Nat) (p : Player)
    (hA : activeState p.state = true)
    (hnone : p.queue[advanceIndex p]? = none) :
    p.advanceQueue res (fuel + 1) = .done { p with queuePosition := none } [] := by
  show Player.advanceQueue res (Nat.succ fuel) p = _
  unfold Player.advanceQueue
  rw [if_neg (by simp [hA])]
  simp only []
  rw [show ({ p with queuePosition := some (advanceIndex p) } : Player).queue[advanceIndex p]?
      = none from hnone]

/-- Reading any in-bounds position of an all-resolved queue yields a `Track`
with a non-empty handle. -/
theorem allResolved_get_track {q : List Entry} {i : Nat}
    (hq : allResolved q = true) (hlt : i < q.length) :
    ∃ t, q[i]? = some (Entry.track t) ∧ ¬ t.track = "" := by
  have hex : (q[i]?).isSome := by rw [List.getElem?_eq_getElem hlt]; rfl
  obtain ⟨e, hget⟩ := Option.isSome_iff_exists.mp hex
  obtain ⟨t, rfl, hh⟩ := allResolved_get hq hget
  exact ⟨t, hget, hh⟩

/-- The queue-index well-formedness of a player: a non-null queue index is a
valid index into the queue and denotes a resolved `Track` entry. -/
def Player.queueIndexOk (p : Player) : Bool :=
  match p.queuePosition with
  | none => true
  | some i =>
    match p.queue[i]? with
    | some (Entry.track _) => true
    | _ => false

/-- The C1 invariant: whenever the player is Connected, Paused or Playing,
its queue index is well-formed. -/
def Player.invariant (p : Player) : Prop :=
  activeState p.state = true → p.queueIndexOk = true

/-- A null queue index is trivially well-formed. -/
theorem queueIndexOk_of_pos_none {p : Player} (hq : p.queuePosition = none) :
    p.queueIndexOk = true := by
  unfold Player.queueIndexOk
  rw [hq]

/-- A queue index denoting a Track entry is well-formed. -/
theorem queueIndexOk_of_get {p : Player} {i : Nat} {t : Track}
    (hq : p.queuePosition = some i) (hg : p.queue[i]? = some (Entry.track t)) :
    p.queueIndexOk = true := by
  unfold Player.queueIndexOk
  rw [hq]
  show (match p.queue[i]? with
        | some (Entry.track _) => true
        | _ => false) = true
  rw [hg]

/-- A well-formed non-null queue index denotes a Track entry. -/
theorem queueIndexOk_some {p : Player} {i : Nat} (hq : p.queuePosition = some i)
    (hok : p.queueIndexOk = true) : ∃ t, p.queue[i]? = some (Entry.track t) := by
  unfold Player.queueIndexOk at hok
  rw [hq] at hok
  replace hok : (match p.queue[i]? with
      | some (Entry.track _) => true
      | _ => false) = true := hok
  split at hok
  · rename_i t hget
    exact ⟨t, hget⟩
  · exact absurd hok (by simp)

/-- A completed `AdvanceResult` survives effect prepending. -/
theorem prepend_done {e : List Effect} {r : AdvanceResult} {p1 : Player}
    {effs : List Effect} (h : AdvanceResult.prepend e r = .done p1 effs) :
    ∃ effs2, r = .done p1 effs2 := by
  cases r <;> simp_all [AdvanceResult.prepend]

/-- Every completed queue-advance re-establishes the queue-index invariant,
whatever state the player started in. -/
theorem advanceQueue_done_invariant (res : Resolver) :
    ∀ (fuel : Nat) (p p1 : Player) (effs : List Effect),
      p.advanceQueue res fuel = .done p1 effs → p1.invariant := by
  intro fuel
  induction fuel with
  | zero =>
    intro p p1 effs h
    exact absurd h (by simp [Player.advanceQueue])
  | succ fuel ih =>
    intro p p1 effs h
    unfold Player.advanceQueue at h
    by_cases hA : activeState p.state = true
    · rw [if_neg (by simp [hA])] at h
      simp only [] at h
      split at h
      · -- computed index holds no entry: the index is cleared
        cases h
        intro _
        simp [Player.queueIndexOk]
      · -- computed index holds an entry
        rename_i entry hentry
        split at h
        · exact absurd h (by simp)
        · -- resolution step succeeded, yielding p2
          rename_i p2 hres
          have hmain : p2.queuePosition = some (advanceIndex p) ∧ p2.state = p.state := by
            split at hres
            · split at hres
              · exact absurd hres (by simp)
              · simp only [Except.ok.injEq] at hres
                subst hres
                exact ⟨rfl, rfl⟩
            · simp only [Except.ok.injEq] at hres
              subst hres
              exact ⟨rfl, rfl⟩
          split at h
          · -- entry decodes to a Track
            rename_i xopt t hget
            split at h
            · -- empty handle: error path, recursion
              obtain ⟨effs2, h2⟩ := prepend_done h
              exact ih _ _ _ h2
            · -- play the track
              rename_i hh
              have hA2 : activeState p2.state = true := by rw [hmain.2]; exact hA
              obtain ⟨p4x, o, heqPlay, hq4, hqp4, hs4, -⟩ := playFrame_default_ok p2 t hA2
              rw [heqPlay] at h
              simp only [AdvanceResult.done.injEq] at h
              obtain ⟨h1, -⟩ := h
              subst h1
              intro _
              simp only [Player.queueIndexOk, hqp4, hmain.1, hq4, hget]
          · -- entry does not decode to a Track: error path, recursion
            obtain ⟨effs2, h2⟩ := prepend_done h
            exact ih _ _ _ h2
    · rw [if_pos (by simp [hA])] at h
      simp only [AdvanceResult.done.injEq] at h
      obtain ⟨h1, -⟩ := h
      subst h1
      intro hact
      exact absurd hact hA

/-- A successful `_play` never changes the queue, the queue index, or the
player state, whatever options it was given. -/
theorem playFrame_ok_fields (p : Player) (t : Track) (o : PlayOptions)
    {p1 : Player} {effs : List Effect} (h : p.playFrame t o = .ok (p1, effs)) :
    p1.queue = p.queue ∧ p1.queuePosition = p.queuePosition ∧ p1.state = p.state ∧
    ∃ o2, effs = [Effect.sendNode (.play p.options.guildId t.track o2)] := by
  unfold Player.playFrame Player.playFrameSend at h
  split at h
  · exact absurd h (by simp)
  · split at h
    · split at h
      · exact absurd h (by simp)
      · simp only [Except.ok.injEq, Prod.mk.injEq] at h
        obtain ⟨h1, h2⟩ := h
        subst h1
        refine ⟨?_, ?_, ?_, _, h2.symm⟩ <;>
          simp only [apply_ite Player.queue, apply_ite Player.queuePosition,
            apply_ite Player.state, ite_self]
    · simp only [Except.ok.injEq, Prod.mk.injEq] at h
      obtain ⟨h1, h2⟩ := h
      subst h1
      refine ⟨?_, ?_, ?_, _, h2.symm⟩ <;>
        simp only [apply_ite Player.queue, apply_ite Player.queuePosition,
          apply_ite Player.state, ite_self]

/-- A successful play-and-set-index step leaves the player with a queue index
that denotes a resolved Track. -/
theorem playValidated_ok_invariant {p : Player} {newPosition : Nat}
    {opts : PlayOptions} {p1 : Player} {effs : List Effect}
    (h : Player.playValidated p newPosition opts = .ok (p1, effs)) : p1.invariant := by
  unfold Player.playValidated at h
  split at h
  · rename_i xopt t hget
    split at h
    · exact absurd h (by simp)
    · split at h
      · exact absurd h (by simp)
      · rename_i pr p2 effs2 hplay
        obtain ⟨hq2, -, -, -⟩ := playFrame_ok_fields p t opts hplay
        simp only [Except.ok.injEq, Prod.mk.injEq] at h
        obtain ⟨h1, -⟩ := h
        subst h1
        intro _
        simp only [Player.queueIndexOk, hq2, hget]
  · exact absurd h (by simp)

/-- A completed `play` re-establishes the queue-index invariant. -/
theorem play_ok_invariant (res : Resolver) (p : Player) (hinv : p.invariant)
    (ts : List Entry) (opts : PlayOptions) {p1 : Player} {effs : List Effect}
    (h : Player.play res p ts opts = .ok (p1, effs)) : p1.invariant := by
  unfold Player.play at h
  split at h
  · exact absurd h (by simp)
  · rename_i hA
    split at h
    · -- Connected: the appended entry is validated and becomes the index
      simp only [] at h
      split at h
      · split at h
        · exact absurd h (by simp)
        · exact playValidated_ok_invariant h
      · exact playValidated_ok_invariant h
    · -- Paused/Playing: entries are only appended
      simp only [Except.ok.injEq, Prod.mk.injEq] at h
      obtain ⟨h1, -⟩ := h
      subst h1
      intro hact
      have hIO : p.queueIndexOk = true := hinv hact
      cases hq : p.queuePosition with
      | none => exact queueIndexOk_of_pos_none rfl
      | some i =>
        obtain ⟨t, hg⟩ := queueIndexOk_some hq hIO
        have hlt : i < p.queue.length := (List.getElem?_eq_some.mp hg).1
        exact queueIndexOk_of_get rfl
          (by rw [show ({ p with queue := p.queue ++ ts } : Player).queue
                = p.queue ++ ts from rfl, List.getElem?_append_left hlt]
              exact hg)

/-- A completed `skip` re-establishes the queue-index invariant. -/
theorem skip_ok_invariant (res : Resolver) (fuel : Nat) (p : Player)
    (idx : Option Nat) {p1 : Player} {effs : List Effect}
    (h : Player.skip res fuel p idx = .ok (p1, effs)) : p1.invariant := by
  unfold Player.skip at h
  split at h
  · exact absurd h (by simp)
  · simp only [Player.stopFrame] at h
    split at h
    · -- explicit index
      split at h
      · exact absurd h (by simp)
      · split at h
        · split at h
          · exact absurd h (by simp)
          · split at h
            · exact absurd h (by simp)
            · rename_i pr p2 effs2 hpv
              simp only [Except.ok.injEq, Prod.mk.injEq] at h
              obtain ⟨h1, -⟩ := h
              subst h1
              exact playValidated_ok_invariant hpv
        · split at h
          · exact absurd h (by simp)
          · rename_i pr p2 effs2 hpv
            simp only [Except.ok.injEq, Prod.mk.injEq] at h
            obtain ⟨h1, -⟩ := h
            subst h1
            exact playValidated_ok_invariant hpv
    · -- no index: queue-advance
      split at h
      · rename_i p2 effs2 hadv
        simp only [Except.ok.injEq, Prod.mk.injEq] at h
        obtain ⟨h1, -⟩ := h
        subst h1
        exact advanceQueue_done_invariant res fuel _ _ _ hadv
      · exact absurd h (by simp)
      · exact absurd h (by simp)

/-- A completed `shuffle` re-establishes the queue-index invariant. -/
theorem shuffle_ok_invariant (rands : Nat → Nat) (res : Resolver) (p : Player)
    {p1 : Player} {effs : List Effect}
    (h : Player.shuffle rands res p = .ok (p1, effs)) : p1.invariant := by
  unfold Player.shuffle at h
  split at h
  · exact absurd h (by simp)
  · simp only [Player.stopFrame] at h
    split at h
    · exact absurd h (by simp)
    · rename_i q1 hq1
      split at h
      · rename_i xopt t hget
        split at h
        · exact absurd h (by simp)
        · split at h
          · exact absurd h (by simp)
          · rename_i pr p2 effs2 hplay
            obtain ⟨hq2, -, -, -⟩ := playFrame_ok_fields _ t {} hplay
            simp only [Except.ok.injEq, Prod.mk.injEq] at h
            obtain ⟨h1, -⟩ := h
            subst h1
            intro _
            simp only [Player.queueIndexOk, hq2, hget]
      · exact absurd h (by simp)

/-- Consing an element read at position `m` onto the list with position `m`
overwritten by `x` is a permutation of consing `x` onto the original list. -/
theorem cons_set_perm {α : Type _} (x : α) :
    ∀ (xs : List α) (m : Nat) (b : α), xs[m]? = some b →
      (b :: xs.set m x).Perm (x :: xs) := by
  intro xs
  induction xs with
  | nil =>
    intro m b hb
    simp at hb
  | cons y ys ih =>
    intro m b hb
    cases m with
    | zero =>
      rw [List.getElem?_cons_zero, Option.some.injEq] at hb
      subst hb
      rw [List.set_cons_zero]
      exact List.Perm.swap x y ys
    | succ k =>
      rw [List.getElem?_cons_succ] at hb
      rw [List.set_cons_succ]
      exact ((List.Perm.swap y b (ys.set k x)).trans ((ih k b hb).cons y)).trans
        (List.Perm.swap x y ys)

/-- The in-place swap of two in-range positions is a permutation. -/
theorem set_set_perm {α : Type _} :
    ∀ (l : List α) (i j : Nat) (a b : α), l[i]? = some a → l[j]? = some b →
      ((l.set i b).set j a).Perm l := by
  intro l
  induction l with
  | nil =>
    intro i j a b ha _
    simp at ha
  | cons x xs ih =>
    intro i j a b ha hb
    cases i with
    | zero =>
      rw [List.getElem?_cons_zero, Option.some.injEq] at ha
      subst ha
      cases j with
      | zero =>
        rw [List.getElem?_cons_zero, Option.some.injEq] at hb
        subst hb
        rw [List.set_cons_zero, List.set_cons_zero]
      | succ m =>
        rw [List.getElem?_cons_succ] at hb
        rw [List.set_cons_zero, List.set_cons_succ]
        exact cons_set_perm x xs m b hb
    | succ n =>
      rw [List.getElem?_cons_succ] at ha
      cases j with
      | zero =>
        rw [List.getElem?_cons_zero, Option.some.injEq] at hb
        subst hb
        rw [List.set_cons_succ, List.set_cons_zero]
        exact cons_set_perm x xs n a ha
      | succ m =>
        rw [List.getElem?_cons_succ] at hb
        rw [List.set_cons_succ, List.set_cons_succ]
        exact (ih n m a b ha hb).cons x

/-- The Fisher-Yates loop permutes the queue (whatever the random draws). -/
theorem shuffleLoop_perm (rands : Nat → Nat) :
    ∀ (c : Nat) (q : List Entry), (shuffleLoop rands c q).Perm q := by
  intro c
  induction c with
  | zero =>
    intro q
    exact List.Perm.refl q
  | succ c ih =>
    intro q
    unfold shuffleLoop
    cases hc : q[c]? with
    | none =>
      simp only [hc]
      exact ih q
    | some a =>
      cases hr : q[rands (c + 1)]? with
      | none =>
        simp only [hc, hr]
        exact ih q
      | some b =>
        simp only [hc, hr]
        exact (ih _).trans (set_set_perm q c (rands (c + 1)) a b hc hr)

/-- `Player.destroy` always emits the DESTROYED notification carrying its
reason. -/
theorem destroy_emits (p : Player) (reason : String) :
    Effect.emitDestroyed p.options.guildId reason ∈ (p.destroy reason).2 := by
  unfold Player.destroy Player.disconnect
  by_cases h : p.currentVoiceChannel.isSome <;> simp [h]

/-- `Player.destroy` never produces a node connect attempt. -/
theorem destroy_no_attempt (p : Player) (r : String) (id : Nat) :
    Effect.nodeAttemptConnect id ∉ (p.destroy r).2 := by
  unfold Player.destroy Player.disconnect
  by_cases h : p.currentVoiceChannel.isSome <;> simp [h]

/-- `Node.destroy` never produces a node connect attempt. -/
theorem nodeDestroy_no_attempt (n : NodeM) (ps : List Player) (r : String) (id : Nat) :
    Effect.nodeAttemptConnect id ∉ (n.destroy ps r).2.2 := by
  unfold NodeM.destroy
  intro hmem
  simp only [List.mem_append, List.mem_flatten, List.mem_map, List.mem_cons,
    List.not_mem_nil, or_false] at hmem
  rcases hmem with ⟨l, ⟨pl, -, rfl⟩, hin⟩ | h | h
  · exact destroy_no_attempt pl _ id hin
  · exact absurd h (by simp)
  · exact absurd h (by simp)

/-- Reaching the retry cap: starting `j` failed attempts below the cap `m`,
after `j + 1` further interval firings (the last of which performs no
attempt) the node is Destroyed with its timer cleared, the bound players are
destroyed with the node-referencing reason and removed from the manager
table, and exactly `j` connect attempts were made. -/
theorem runFailingTicks_reaches_cap (m : Nat) (hm : m ≠ 0) :
    ∀ (j : Nat) (n : NodeM) (ps : List Player),
      n.options.maxRetrys = m → n.state = NodeState.reconnecting →
      n.reconnectTimeoutActive = true → n.reconnectAttempts + j = m →
      (NodeM.runFailingTicks (j + 1) n ps).1.state = NodeState.destroyed ∧
      (NodeM.runFailingTicks (j + 1) n ps).1.reconnectTimeoutActive = false ∧
      (NodeM.runFailingTicks (j + 1) n ps).2.1
        = ps.filter (fun pl => ¬ pl.nodeIdentifier = n.identifier) ∧
      (∀ pl ∈ ps, pl.nodeIdentifier = n.identifier →
        Effect.emitDestroyed pl.options.guildId "Attached node destroyed"
          ∈ (NodeM.runFailingTicks (j + 1) n ps).2.2) ∧
      (NodeM.runFailingTicks (j + 1) n ps).2.2.count
        (Effect.nodeAttemptConnect n.identifier) = j := by
  intro j
  induction j with
  | zero =>
    intro n ps hmax hstate htimer hatt
    have hatt0 : n.reconnectAttempts = m := by omega
    have htick : n.reconnectTick true ps =
        ((n.destroy ps "Manual destroy").1, (n.destroy ps "Manual destroy").2.1,
         Effect.nodeEmitError n.identifier
             ("Unable to reconnect after " ++ toString n.reconnectAttempts
               ++ " attempts.")
           :: (n.destroy ps "Manual destroy").2.2) := by
      unfold NodeM.reconnectTick
      rw [if_neg (by simp [htimer])]
      rw [if_pos (by rw [hmax, hatt0]; exact ⟨hm, Nat.le_refl m⟩)]
    have hrun : NodeM.runFailingTicks 1 n ps =
        ((n.destroy ps "Manual destroy").1, (n.destroy ps "Manual destroy").2.1,
         (Effect.nodeEmitError n.identifier
             ("Unable to reconnect after " ++ toString n.reconnectAttempts
               ++ " attempts.")
           :: (n.destroy ps "Manual destroy").2.2) ++ []) := by
      show NodeM.runFailingTicks (Nat.succ 0) n ps = _
      unfold NodeM.runFailingTicks
      rw [htick]
      rfl
    rw [hrun]
    refine ⟨rfl, rfl, rfl, ?_, ?_⟩
    · intro pl hpl hid
      have hb : pl ∈ ps.filter (fun q => q.nodeIdentifier = n.identifier) :=
        List.mem_filter.mpr ⟨hpl, by simp [hid]⟩
      have hl : (pl.destroy "Attached node destroyed").2 ∈
          (ps.filter (fun q => q.nodeIdentifier = n.identifier)).map
            (fun q => (q.destroy "Attached node destroyed").2) :=
        List.mem_map_of_mem _ hb
      have hmem : Effect.emitDestroyed pl.options.guildId "Attached node destroyed"
          ∈ ((ps.filter (fun q => q.nodeIdentifier = n.identifier)).map
            (fun q => (q.destroy "Attached node destroyed").2)).flatten :=
        List.mem_flatten.mpr ⟨_, hl, destroy_emits pl "Attached node destroyed"⟩
      show _ ∈ _ ++ ([] : List Effect)
      rw [List.append_nil]
      exact List.mem_cons_of_mem _ (List.mem_append_left _ hmem)
    · rw [List.append_nil, List.count_cons]
      have h0 : ((n.destroy ps "Manual destroy").2.2).count
          (Effect.nodeAttemptConnect n.identifier) = 0 :=
        List.count_eq_zero.mpr (nodeDestroy_no_attempt n ps "Manual destroy" n.identifier)
      rw [h0]
      simp
  | succ j ih =>
    intro n ps hmax hstate htimer hatt
    have hlt : n.reconnectAttempts < m := by omega
    have htick : n.reconnectTick true ps =
        ({ n with state := NodeState.reconnecting, reconnectAttempts := n.reconnectAttempts + 1 },
         ps,
         [Effect.nodeEmitReconnecting n.identifier,
          Effect.nodeAttemptConnect n.identifier]) := by
      unfold NodeM.reconnectTick
      rw [if_neg (by simp [htimer])]
      rw [if_neg (by rw [hmax]; intro hand; omega)]
      rfl
    obtain ⟨ih1, ih2, ih3, ih4, ih5⟩ := ih
      { n with state := NodeState.reconnecting, reconnectAttempts := n.reconnectAttempts + 1 }
      ps hmax rfl htimer (by simp; omega)
    have hstep : NodeM.runFailingTicks (j + 1 + 1) n ps =
        ((NodeM.runFailingTicks (j + 1)
            { n with state := NodeState.reconnecting, reconnectAttempts := n.reconnectAttempts + 1 }
            ps).1,
         (NodeM.runFailingTicks (j + 1)
            { n with state := NodeState.reconnecting, reconnectAttempts := n.reconnectAttempts + 1 }
            ps).2.1,
         [Effect.nodeEmitReconnecting n.identifier,
          Effect.nodeAttemptConnect n.identifier] ++
           (NodeM.runFailingTicks (j + 1)
              { n with state := NodeState.reconnecting, reconnectAttempts := n.reconnectAttempts + 1 }
              ps).2.2) := by
      show NodeM.runFailingTicks (Nat.succ (j + 1)) n ps = _
      unfold NodeM.runFailingTicks
      rw [htick]
      rfl
    rw [hstep]
    refine ⟨ih1, ih2, ih3, ?_, ?_⟩
    · intro pl hpl hid
      exact List.mem_append_right _ (ih4 pl hpl hid)
    · rw [List.count_append, ih5]
      simp [List.count_cons, List.count_nil]
      omega

/-- Unlimited retries: with `maxRetrys = 0` the node keeps reconnecting and
is never destroyed by the cap, however many firings fail. -/
theorem runFailingTicks_unlimited :
    ∀ (k : Nat) (n : NodeM) (ps : List Player), n.options.maxRetrys = 0 →
      n.state = NodeState.reconnecting → n.reconnectTimeoutActive = true →
      (NodeM.runFailingTicks k n ps).1.state = NodeState.reconnecting := by
  intro k
  induction k with
  | zero =>
    intro n ps h0 hstate htimer
    exact hstate
  | succ k ih =>
    intro n ps h0 hstate htimer
    have htick : n.reconnectTick true ps =
        ({ n with state := NodeState.reconnecting, reconnectAttempts := n.reconnectAttempts + 1 },
         ps,
         [Effect.nodeEmitReconnecting n.identifier,
          Effect.nodeAttemptConnect n.identifier]) := by
      unfold NodeM.reconnectTick
      rw [if_neg (by simp [htimer])]
      rw [if_neg (by rw [h0]; intro hand; exact hand.1 rfl)]
      rfl
    show (NodeM.runFailingTicks (Nat.succ k) n ps).1.state = _
    unfold NodeM.runFailingTicks
    rw [htick]
    exact ih _ ps h0 rfl htimer

/-- The head of a filtered list is the first element satisfying the
predicate. -/
theorem filter_head?_eq_find? {α : Type _} (p : α → Bool) :
    ∀ l : List α, (l.filter p).head? = l.find? p := by
  intro l
  induction l with
  | nil => rfl
  | cons x xs ih =>
    cases h : p x with
    | false =>
      rw [List.filter_cons, if_neg (by simp [h]), List.find?_cons_of_neg _ (by simp [h])]
      exact ih
    | true =>
      rw [List.filter_cons, if_pos (by simp [h]), List.find?_cons_of_pos _ (by simp [h])]
      rfl

/-! ## Theorems -/

/-- C2: the queue-advance procedure on an active player whose queue holds
only resolved tracks: a null index becomes 0; loop `single` leaves the index
unchanged; otherwise the index is incremented; an increment past the last
entry wraps to 0 under loop `queue` and clears the index to null (queue
exhausted) under loop `off`. -/
theorem c2_advance_queue_loop_semantics (res : Resolver) (p : Player)
    (hA : activeState p.state = true) (hq : allResolved p.queue = true) :
    (p.queuePosition = none → p.queue ≠ [] →
      ∃ p1 effs, p.advanceQueue res 1 = .done p1 effs ∧ p1.queuePosition = some 0) ∧
    (∀ i, p.queuePosition = some i → p.loop = LoopType.single → i < p.queue.length →
      ∃ p1 effs, p.advanceQueue res 1 = .done p1 effs ∧ p1.queuePosition = some i) ∧
    (∀ i, p.queuePosition = some i → p.loop ≠ LoopType.single → i + 1 < p.queue.length →
      ∃ p1 effs, p.advanceQueue res 1 = .done p1 effs ∧ p1.queuePosition = some (i + 1)) ∧
    (∀ i, p.queuePosition = some i → p.loop = LoopType.queue → i < p.queue.length →
      p.queue.length ≤ i + 1 →
      ∃ p1 effs, p.advanceQueue res 1 = .done p1 effs ∧ p1.queuePosition = some 0) ∧
    (∀ i, p.queuePosition = some i → p.loop = LoopType.off → p.queue.length ≤ i + 1 →
      p.advanceQueue res 1 = .done { p with queuePosition := none } []) := by
  refine ⟨?_, ?_, ?_, ?_, ?_⟩
  · intro h0 hne
    have hidx : advanceIndex p = 0 := by simp [advanceIndex, h0]
    obtain ⟨t, hget, hh⟩ := allResolved_get_track hq (List.length_pos.mpr hne)
    obtain ⟨p1, o, hdone, hpos, -, -⟩ :=
      advanceQueue_done_of_track res 0 p hA (by rw [hidx]; exact hget) hh
    exact ⟨p1, _, hdone, by rw [hpos, hidx]⟩
  · intro i hi hs hlt
    have hidx : advanceIndex p = i := by simp [advanceIndex, hi, hs]
    obtain ⟨t, hget, hh⟩ := allResolved_get_track hq hlt
    obtain ⟨p1, o, hdone, hpos, -, -⟩ :=
      advanceQueue_done_of_track res 0 p hA (by rw [hidx]; exact hget) hh
    exact ⟨p1, _, hdone, by rw [hpos, hidx]⟩
  · intro i hi hns hlt
    have hidx : advanceIndex p = i + 1 := by
      simp [advanceIndex, hi, hns, List.getElem?_eq_getElem hlt]
    obtain ⟨t, hget, hh⟩ := allResolved_get_track hq hlt
    obtain ⟨p1, o, hdone, hpos, -, -⟩ :=
      advanceQueue_done_of_track res 0 p hA (by rw [hidx]; exact hget) hh
    exact ⟨p1, _, hdone, by rw [hpos, hidx]⟩
  · intro i hi hs hlt hl2
    have hidx : advanceIndex p = 0 := by
      simp [advanceIndex, hi, hs, List.getElem?_eq_none hl2]
    obtain ⟨t, hget, hh⟩ :=
      allResolved_get_track hq (Nat.lt_of_le_of_lt (Nat.zero_le i) hlt)
    obtain ⟨p1, o, hdone, hpos, -, -⟩ :=
      advanceQueue_done_of_track res 0 p hA (by rw [hidx]; exact hget) hh
    exact ⟨p1, _, hdone, by rw [hpos, hidx]⟩
  · intro i hi hs hl2
    have hidx : advanceIndex p = i + 1 := by simp [advanceIndex, hi, hs]
    exact advanceQueue_done_of_none res 0 p hA
      (by rw [hidx]; exact List.getElem?_eq_none hl2)

/-- C2 witness: a two-track queue at index 1 with loop mode Off advances past
the end and clears the index. -/
theorem c2_witness :
    ({ options := sampleOptions, state := PlayerState.connected,
       queue := [Entry.track sampleTrack, Entry.track sampleTrack2],
       queuePosition := some 1, loop := LoopType.off } : Player).advanceQueue
        (fun _ => none) 1
      = .done { options := sampleOptions, state := PlayerState.connected,
                queue := [Entry.track sampleTrack, Entry.track sampleTrack2],
                queuePosition := none, loop := LoopType.off } [] :=
  (c2_advance_queue_loop_semantics (fun _ => none)
      { options := sampleOptions, state := PlayerState.connected,
        queue := [Entry.track sampleTrack, Entry.track sampleTrack2],
        queuePosition := some 1, loop := LoopType.off }
      (by decide) (by decide)).2.2.2.2 1 rfl rfl (by decide)

/-- C1: the queue-index invariant — in Connected/Paused/Playing a non-null
queue index is a valid index denoting a resolved Track — is preserved by
every completed `play`, `skip` and `shuffle`, and re-established by every
completed queue-advance. -/
theorem c1_queue_index_invariant (res : Resolver) (p : Player) (hinv : p.invariant) :
    (∀ ts opts p1 effs, Player.play res p ts opts = .ok (p1, effs) → p1.invariant) ∧
    (∀ fuel idx p1 effs, Player.skip res fuel p idx = .ok (p1, effs) → p1.invariant) ∧
    (∀ rands p1 effs, Player.shuffle rands res p = .ok (p1, effs) → p1.invariant) ∧
    (∀ fuel p1 effs, p.advanceQueue res fuel = .done p1 effs → p1.invariant) :=
  ⟨fun ts opts _ _ h => play_ok_invariant res p hinv ts opts h,
   fun fuel idx _ _ h => skip_ok_invariant res fuel p idx h,
   fun rands _ _ h => shuffle_ok_invariant rands res p h,
   fun fuel _ _ h => advanceQueue_done_invariant res fuel p _ _ h⟩

/-- C1 witness: playing a track on a freshly connected empty-queue player
leaves the index at 0 denoting the resolved track. -/
theorem c1_witness :
    ({ options := sampleOptions, state := PlayerState.connected,
       queue := [Entry.track sampleTrack], queuePosition := some 0 } : Player).invariant :=
  (c1_queue_index_invariant (fun _ => none)
      { options := sampleOptions, state := PlayerState.connected } (fun _ => rfl)).1
    [Entry.track sampleTrack] {}
    { options := sampleOptions, state := PlayerState.connected,
      queue := [Entry.track sampleTrack], queuePosition := some 0 }
    [Effect.sendNode (NodeOp.play "guild1" "enc1" {})] rfl

/-- C7: for a `TrackPartial` with a non-empty author hint, `resolveTrack`
throws exactly when the load type is not a plain search result or no Track
candidates remain; otherwise it returns the first candidate whose author
equals the hint author or the hint author followed by " - Topic"
(case-insensitively) when one exists — regardless of any earlier
duration-window candidate — else the first candidate inside the duration
window [hint - 2000 ms, hint + 200 ms], else the first remaining
candidate. -/
theorem c7_resolve_track_priority (sr : SearchEnvelope) (pt : TrackPartial)
    (a : String) (hA : pt.author = some a) (ha : a ≠ "") :
    ((sr.loadType ≠ LoadType.searchResult ∨ searchTracks sr = []) →
      resolveTrack sr pt = .error "No results found") ∧
    (sr.loadType = LoadType.searchResult → searchTracks sr ≠ [] →
      (∀ t, (searchTracks sr).find? (authorMatch a) = some t →
        resolveTrack sr pt = .ok t) ∧
      ((searchTracks sr).find? (authorMatch a) = none →
        (∀ t, (durationCandidates pt (searchTracks sr)).head? = some t →
          resolveTrack sr pt = .ok t) ∧
        ((durationCandidates pt (searchTracks sr)).head? = none →
          ∀ t, (searchTracks sr).head? = some t → resolveTrack sr pt = .ok t))) := by
  have hac : authorCandidates pt (searchTracks sr) =
      (searchTracks sr).filter (authorMatch a) := by
    simp [authorCandidates, hA, ha]
  constructor
  · intro hfail
    unfold resolveTrack
    rw [if_pos hfail]
  · intro hL hne
    have hcond : ¬ (sr.loadType ≠ LoadType.searchResult ∨ searchTracks sr = []) := by
      simp [hL, hne]
    refine ⟨?_, fun hnone => ⟨?_, fun hdnone t hhead => ?_⟩⟩
    · intro t hfind
      unfold resolveTrack
      rw [if_neg hcond, hac, filter_head?_eq_find?, hfind]
    · intro t hdur
      unfold resolveTrack
      rw [if_neg hcond, hac, filter_head?_eq_find?, hnone, hdur]
    · unfold resolveTrack
      rw [if_neg hcond, hac, filter_head?_eq_find?, hnone, hdnone, hhead]

/-- The search envelope for the C7 witness: a duration-window candidate comes
first, the author-matching candidate ("ARTIST - Topic") second. -/
def c7Env : SearchEnvelope :=
  { loadType := .searchResult,
    tracks := [Entry.track { track := "eDur", author := "Someone",
                             title := "Song", length := 99000 },
               Entry.track { track := "eAuth", author := "ARTIST - Topic",
                             title := "Song", length := 50000 }] }

/-- The unresolved reference for the C7 witness. -/
def c7Partial : TrackPartial :=
  { title := "Song", requester := "u1", author := some "Artist",
    length := some 100000 }

/-- C7 witness: the author hint "Artist" is present and non-empty, so the
priority order applies to the witness envelope. -/
theorem c7_witness :
    ((c7Env.loadType ≠ LoadType.searchResult ∨ searchTracks c7Env = []) →
      resolveTrack c7Env c7Partial = .error "No results found") ∧
    (c7Env.loadType = LoadType.searchResult → searchTracks c7Env ≠ [] →
      (∀ t, (searchTracks c7Env).find? (authorMatch "Artist") = some t →
        resolveTrack c7Env c7Partial = .ok t) ∧
      ((searchTracks c7Env).find? (authorMatch "Artist") = none →
        (∀ t, (durationCandidates c7Partial (searchTracks c7Env)).head? = some t →
          resolveTrack c7Env c7Partial = .ok t) ∧
        ((durationCandidates c7Partial (searchTracks c7Env)).head? = none →
          ∀ t, (searchTracks c7Env).head? = some t →
            resolveTrack c7Env c7Partial = .ok t))) :=
  c7_resolve_track_priority c7Env c7Partial "Artist" rfl (by decide)

/-- C10: `setLoop` performs no state check (it is total over all player
states, including Disconnected, Connecting and Destroyed), sends no frame to
the node, and modifies only the loop field: queue, queuePosition, state,
position, volume and filters are unchanged. -/
theorem c10_setLoop_only_sets_loop (p : Player) (type : LoopType) :
    (p.setLoop type).2 = [] ∧
    (p.setLoop type).1.loop = type ∧
    (p.setLoop type).1.queue = p.queue ∧
    (p.setLoop type).1.queuePosition = p.queuePosition ∧
    (p.setLoop type).1.state = p.state ∧
    (p.setLoop type).1.position = p.position ∧
    (p.setLoop type).1.volume = p.volume ∧
    (p.setLoop type).1.filters = p.filters :=
  ⟨rfl, rfl, rfl, rfl, rfl, rfl, rfl, rfl⟩

/-- C4 (code bug): the constructor validation accepts
`connectionTimeout = retryDelay` — in particular the all-defaults
configuration, whose completed values are 15000 and 15000 — throwing only
when `connectionTimeout > retryDelay`, although the claim (and the options
documentation in the source) requires strictly `connectionTimeout <
retryDelay` to construct. -/
theorem c4_construction_accepts_equal_timeouts :
    (nodeConstruct { connectionTimeout := some 15000, retryDelay := some 15000 }).isOk = true ∧
    (nodeConstruct {}).isOk = true ∧
    ((nodeConstruct {}).toOption.map fun c => (c.connectionTimeout, c.retryDelay))
      = some (15000, 15000) ∧
    (nodeConstruct { connectionTimeout := some 15001, retryDelay := some 15000 }).isOk = false :=
  ⟨rfl, rfl, rfl, rfl⟩

/-- C9 (code bug): a bare URL passes through verbatim and a youtube search is
prefixed `ytsearch:`, but a soundcloud search is prefixed
`undefinedsearch:` — `SOURCE_IDENTIFIERS` has no `soundcloud` key (the
`'sc'` identifier sits under the key `spotify`, which is not a `Source`), so
the lookup yields `undefined` inside the template. -/
theorem c9_soundcloud_identifier_is_undefined :
    searchIdentifier "https://youtu.be/dQw4w9WgXcQ" Source.soundcloud
      = "https://youtu.be/dQw4w9WgXcQ" ∧
    searchIdentifier "never gonna" Source.youtube = "ytsearch:never gonna" ∧
    searchIdentifier "never gonna" Source.soundcloud = "undefinedsearch:never gonna" := by
  refine ⟨by decide, by decide, by decide⟩

/-- C3: with a positive retry cap `m` (the claim instantiates `m = 3`), after
`m` consecutive failed reconnect attempts the next interval firing destroys
the node: it reaches the Destroyed state with the retry timer cleared,
exactly `m` connect attempts having been made; every player bound to the node
is destroyed with the reason "Attached node destroyed" (referencing the
attached node) and removed from the manager's player table.  Destroyed is
terminal for the loop: a node whose timer is cleared is unaffected by further
firings.  With `maxRetrys = 0` the retries are unlimited: the node is still
Reconnecting after any number of failed firings, so the cap is never
reached. -/
theorem c3_reconnect_cap (m : Nat) (n : NodeM) (ps : List Player)
    (hm : m ≠ 0) (hmax : n.options.maxRetrys = m)
    (hstate : n.state = NodeState.reconnecting)
    (htimer : n.reconnectTimeoutActive = true)
    (hatt : n.reconnectAttempts = 0) :
    ((NodeM.runFailingTicks (m + 1) n ps).1.state = NodeState.destroyed ∧
     (NodeM.runFailingTicks (m + 1) n ps).1.reconnectTimeoutActive = false ∧
     (NodeM.runFailingTicks (m + 1) n ps).2.2.count
        (Effect.nodeAttemptConnect n.identifier) = m ∧
     (∀ pl ∈ ps, pl.nodeIdentifier = n.identifier →
        Effect.emitDestroyed pl.options.guildId "Attached node destroyed"
          ∈ (NodeM.runFailingTicks (m + 1) n ps).2.2) ∧
     (NodeM.runFailingTicks (m + 1) n ps).2.1
        = ps.filter (fun pl => ¬ pl.nodeIdentifier = n.identifier)) ∧
    (∀ (n1 : NodeM) (ps1 : List Player), n1.reconnectTimeoutActive = false →
      n1.reconnectTick true ps1 = (n1, ps1, [])) ∧
    (∀ (n0 : NodeM) (ps0 : List Player) (k : Nat), n0.options.maxRetrys = 0 →
      n0.state = NodeState.reconnecting → n0.reconnectTimeoutActive = true →
      (NodeM.runFailingTicks k n0 ps0).1.state = NodeState.reconnecting) := by
  obtain ⟨h1, h2, h3, h4, h5⟩ :=
    runFailingTicks_reaches_cap m hm m n ps hmax hstate htimer (by omega)
  refine ⟨⟨h1, h2, h5, h4, h3⟩, ?_, ?_⟩
  · intro n1 ps1 ht
    unfold NodeM.reconnectTick
    rw [if_pos (by simp [ht])]
  · intro n0 ps0 k h0 hs htm
    exact runFailingTicks_unlimited k n0 ps0 h0 hs htm

/-- A reconnecting node with `maxRetrys = 3`, timer armed. -/
def c3Node : NodeM :=
  { identifier := 7, options := NodeOptions.applyDefaults { maxRetrys := some 3 },
    state := .reconnecting, reconnectAttempts := 0, reconnectTimeoutActive := true }

/-- A player bound to `c3Node`. -/
def c3Bound : Player :=
  { options := sampleOptions, nodeIdentifier := 7, state := .connected }

/-- A player bound to a different node. -/
def c3Other : Player :=
  { options := { sampleOptions with guildId := "guild2" }, nodeIdentifier := 9 }

/-- C3 witness: a cap of 3 destroys the node on the fourth firing, destroying
exactly the bound player. -/
theorem c3_witness :
    ((NodeM.runFailingTicks (3 + 1) c3Node [c3Bound, c3Other]).1.state
        = NodeState.destroyed ∧
     (NodeM.runFailingTicks (3 + 1) c3Node [c3Bound, c3Other]).1.reconnectTimeoutActive
        = false ∧
     (NodeM.runFailingTicks (3 + 1) c3Node [c3Bound, c3Other]).2.2.count
        (Effect.nodeAttemptConnect c3Node.identifier) = 3 ∧
     (∀ pl ∈ [c3Bound, c3Other], pl.nodeIdentifier = c3Node.identifier →
        Effect.emitDestroyed pl.options.guildId "Attached node destroyed"
          ∈ (NodeM.runFailingTicks (3 + 1) c3Node [c3Bound, c3Other]).2.2) ∧
     (NodeM.runFailingTicks (3 + 1) c3Node [c3Bound, c3Other]).2.1
        = [c3Bound, c3Other].filter (fun pl => ¬ pl.nodeIdentifier = c3Node.identifier)) ∧
    (∀ (n1 : NodeM) (ps1 : List Player), n1.reconnectTimeoutActive = false →
      n1.reconnectTick true ps1 = (n1, ps1, [])) ∧
    (∀ (n0 : NodeM) (ps0 : List Player) (k : Nat), n0.options.maxRetrys = 0 →
      n0.state = NodeState.reconnecting → n0.reconnectTimeoutActive = true →
      (NodeM.runFailingTicks k n0 ps0).1.state = NodeState.reconnecting) :=
  c3_reconnect_cap 3 c3Node [c3Bound, c3Other] (by decide) (by decide) rfl rfl rfl

/-- C6 (amended): a completed `shuffle` resets the queue index to 0 and plays
a resolved track at position 0; the resulting queue is a permutation of the
pre-shuffle queue except that the entry landing at position 0, when it was an
unresolved reference, is replaced by its resolved Track (an already resolved
entry leaves the multiset exactly preserved). -/
theorem c6_shuffle_permutes_up_to_resolution (rands : Nat → Nat) (res : Resolver)
    (p : Player) {p1 : Player} {effs : List Effect}
    (h : Player.shuffle rands res p = .ok (p1, effs)) :
    p1.queuePosition = some 0 ∧
    ∃ q1 t o, q1.Perm p.queue ∧ p1.queue[0]? = some (Entry.track t) ∧
      ¬ t.track = "" ∧
      Effect.sendNode (NodeOp.play p.options.guildId t.track o) ∈ effs ∧
      ((q1[0]? = some (Entry.track t) ∧ p1.queue = q1) ∨
       (∃ pt, q1[0]? = some (Entry.part pt) ∧ res pt = some t ∧
         p1.queue = q1.set 0 (Entry.track t))) := by
  unfold Player.shuffle at h
  split at h
  · exact absurd h (by simp)
  · rename_i hA
    simp only [Player.stopFrame] at h
    split at h
    · exact absurd h (by simp)
    · rename_i q1res hq1
      split at h
      · rename_i xopt t hget
        split at h
        · exact absurd h (by simp)
        · rename_i hh
          split at h
          · exact absurd h (by simp)
          · rename_i pr p2 e2 hplay
            obtain ⟨hq2, -, -, o, he2⟩ := playFrame_ok_fields _ t {} hplay
            simp only [Except.ok.injEq, Prod.mk.injEq] at h
            obtain ⟨h1, h2⟩ := h
            subst h1
            subst h2
            refine ⟨rfl, shuffleLoop rands p.queue.length p.queue, t, o, ?_, ?_, hh, ?_, ?_⟩
            · exact shuffleLoop_perm rands p.queue.length p.queue
            · show p2.queue[0]? = _
              rw [hq2]
              exact hget
            · rw [he2]
              exact List.mem_append_right _ (List.mem_singleton.mpr rfl)
            · -- relate the resolved queue to the shuffled queue
              split at hq1
              · rename_i pt hpt
                split at hq1
                · exact absurd hq1 (by simp)
                · rename_i rt hrt
                  simp only [Except.ok.injEq] at hq1
                  subst hq1
                  have hlt : 0 < (shuffleLoop rands p.queue.length p.queue).length :=
                    (List.getElem?_eq_some.mp hpt).1
                  have hget0 : ((shuffleLoop rands p.queue.length p.queue).set 0
                      (Entry.track rt))[0]? = some (Entry.track rt) := by
                    simp [List.getElem?_set, hlt]
                  have hrt2 : rt = t := by
                    have := hget0.symm.trans hget
                    simpa using this
                  subst hrt2
                  exact Or.inr ⟨pt, hpt, hrt, by show p2.queue = _; rw [hq2]⟩
              · rename_i hother
                simp only [Except.ok.injEq] at hq1
                subst hq1
                exact Or.inl ⟨hget, by show p2.queue = _; rw [hq2]⟩
      · exact absurd h (by simp)

/-- A connected player with a single resolved track queued. -/
def connectedOneTrack : Player :=
  { options := sampleOptions, state := .connected, queue := [Entry.track sampleTrack] }

/-- C6 witness: shuffling the one-track queue plays the track and keeps the
multiset. -/
theorem c6_witness :
    ({ connectedOneTrack with queuePosition := some 0 } : Player).queuePosition
      = some 0 ∧
    ∃ q1 t o, q1.Perm connectedOneTrack.queue ∧
      ({ connectedOneTrack with queuePosition := some 0 } : Player).queue[0]?
        = some (Entry.track t) ∧ ¬ t.track = "" ∧
      Effect.sendNode (NodeOp.play connectedOneTrack.options.guildId t.track o) ∈
        [Effect.sendNode (NodeOp.stop "guild1"),
         Effect.sendNode (NodeOp.play "guild1" "enc1" {})] ∧
      ((q1[0]? = some (Entry.track t) ∧
        ({ connectedOneTrack with queuePosition := some 0 } : Player).queue = q1) ∨
       (∃ pt, q1[0]? = some (Entry.part pt) ∧ (fun _ => none : Resolver) pt = some t ∧
         ({ connectedOneTrack with queuePosition := some 0 } : Player).queue
           = q1.set 0 (Entry.track t))) :=
  c6_shuffle_permutes_up_to_resolution (fun _ => 0) (fun _ => none)
    connectedOneTrack rfl

/-- C6 (counterexample to the claim as stated): shuffling a queue holding one
unresolved reference replaces it by its resolved Track, so the post-shuffle
queue is NOT a permutation of the pre-shuffle queue. -/
theorem c6_counterexample_resolution_changes_multiset :
    (Player.shuffle (fun _ => 0) (fun _ => some sampleTrack)
        { options := sampleOptions, state := PlayerState.connected,
          queue := [Entry.part { title := "Song", requester := "u1" }] }).isOk = true ∧
    ¬ ((((Player.shuffle (fun _ => 0) (fun _ => some sampleTrack)
          { options := sampleOptions, state := PlayerState.connected,
            queue := [Entry.part { title := "Song", requester := "u1" }] }).toOption.map
            (fun r => r.1.queue)).getD []).Perm
        [Entry.part { title := "Song", requester := "u1" }]) :=
  ⟨rfl, fun hperm =>
    absurd (hperm.count_eq (Entry.part { title := "Song", requester := "u1" }))
      (by decide)⟩

/-- C8 (amended): a second `destroy()` never throws (the operation is total)
and leaves the player's state exactly as the first call left it, but it is
not free of observable side effects: it sends another destroy frame to the
node and re-emits a DESTROYED event. -/
theorem c8_second_destroy_state_fixed_but_resends (p : Player) (r1 r2 : String) :
    ((p.destroy r1).1.destroy r2).1 = (p.destroy r1).1 ∧
    Effect.sendNode (NodeOp.destroyOp p.options.guildId) ∈ ((p.destroy r1).1.destroy r2).2 ∧
    Effect.emitDestroyed p.options.guildId r2 ∈ ((p.destroy r1).1.destroy r2).2 := by
  by_cases h : p.currentVoiceChannel.isSome <;>
    simp [Player.destroy, Player.disconnect, h]

/-- C5 (amended): the voice-update reconciliation records the new channel and
the voice-state snapshot as last-observed on every branch — pause, resume,
connect-success, wrong-channel destroy while Connecting, and no-op — except
the two early-return destroy branches (move-behavior destroy on moving out of
the channel, and stage-move-behavior destroy on becoming suppressed). -/
theorem c5_handleMove_records_except_early_destroy (perms : StagePermissions)
    (p : Player) (newChannel : Option String) (data : VoiceData)
    (h1 : ¬ (activeState p.state = true ∧
      p.options.moveBehavior = MoveBehavior.destroy ∧
      (¬ some p.options.voiceChannelId = newChannel ∨ newChannel = none)))
    (h2 : ¬ (activeState p.state = true ∧ p.isStage = some true ∧
      p.options.becomeSpeaker = true ∧ p.lastVoiceState.isSome = true ∧
      p.options.stageMoveBehavior = MoveBehavior.destroy ∧
      ¬ (p.lastVoiceState.map VoiceData.suppress).getD false = true ∧
      data.suppress = true)) :
    (Player.handleMove perms p newChannel data).1.currentVoiceChannel = newChannel ∧
    (Player.handleMove perms p newChannel data).1.lastVoiceState = some data := by
  simp only [Player.handleMove]
  split
  · -- active playback state
    rename_i hA
    split
    · -- move-behavior destroy early return: excluded by h1
      rename_i hguard
      exact absurd ⟨hA, hguard⟩ h1
    · split
      · -- stage block
        rename_i hStage
        split
        · -- stage destroy early return: excluded by h2
          rename_i hSD
          exact absurd ⟨hA, hStage.1, hStage.2.1, hStage.2.2, hSD.1, hSD.2.1,
            hSD.2.2⟩ h2
        · exact ⟨rfl, rfl⟩
      · exact ⟨rfl, rfl⟩
  · split
    · -- connecting
      split
      · exact ⟨rfl, rfl⟩
      · exact ⟨rfl, rfl⟩
    · exact ⟨rfl, rfl⟩

/-- C5 witness: a pause-behavior player moved into its bound channel records
the channel and the voice-state snapshot. -/
theorem c5_witness :
    (Player.handleMove { becomeSpeaker := false, request := false }
        { options := { sampleOptions with moveBehavior := MoveBehavior.pause },
          state := PlayerState.connected, currentVoiceChannel := some "vc2" }
        (some "vc1") { channelId := some "vc1", suppress := false }).1.currentVoiceChannel
      = some "vc1" ∧
    (Player.handleMove { becomeSpeaker := false, request := false }
        { options := { sampleOptions with moveBehavior := MoveBehavior.pause },
          state := PlayerState.connected, currentVoiceChannel := some "vc2" }
        (some "vc1") { channelId := some "vc1", suppress := false }).1.lastVoiceState
      = some { channelId := some "vc1", suppress := false } :=
  c5_handleMove_records_except_early_destroy _ _ _ _ (by decide) (by decide)

/-- C5 (counterexample to the claim as stated): with move-behavior destroy, a
connected player reported in a different channel takes the early-return
destroy branch (line 602) and does not record the new channel or the
voice-state snapshot. -/
theorem c5_counterexample_destroy_branch_skips_recording :
    ¬ ((Player.handleMove { becomeSpeaker := false, request := false }
          { options := sampleOptions, state := PlayerState.connected,
            currentVoiceChannel := some "vc1" }
          (some "vc2")
          { channelId := some "vc2", suppress := false }).1.currentVoiceChannel
        = some "vc2" ∧
       (Player.handleMove { becomeSpeaker := false, request := false }
          { options := sampleOptions, state := PlayerState.connected,
            currentVoiceChannel := some "vc1" }
          (some "vc2")
          { channelId := some "vc2", suppress := false }).1.lastVoiceState
        = some { channelId := some "vc2", suppress := false }) := by
  decide

/-- C8 (counterexample to the claim as stated): after destroying a connected
player, a second `destroy()` call sends a further `destroy` frame to the
node — an observable side effect the claim rules out. -/
theorem c8_counterexample_second_destroy_sends_frame :
    Effect.sendNode (NodeOp.destroyOp "guild1") ∈
      ((({ options := sampleOptions, state := .connected,
           currentVoiceChannel := some "vc1" } : Player).destroy "Manual destroy").1.destroy
        "Manual destroy").2 := by
  decide

end RoseLavalink
